import Mathlib

/-!
Verification of the Trivia API service (`backend/flaskr/__init__.py`).

The handlers are shallowly embedded: the relational store is a `List` of
rows passed explicitly, HTTP error responses are `Except.error code`, and
each success response is a structure whose fields mirror the JSON keys of
the source. Python slicing, the SQL `ILIKE` operator and SQLAlchemy's
`one_or_none` are modelled faithfully below.
-/

deriving instance DecidableEq for Except

namespace TriviaAPI

/-- Modelled from the spec: the Question record (sections 3 and 4.8 of the
spec; `models.py` is not part of the provided source). Field values arrive
from JSON bodies untouched, so the loosely typed `category` and
`difficulty` are kept as strings, matching the spec's
"stored as a loosely-typed value (string-in-practice in source)". -/
structure Question where
  id : Nat
  question : String
  answer : String
  category : String
  difficulty : String
deriving DecidableEq

/-- Modelled from the spec: the Category record (section 3 of the spec). -/
structure Category where
  id : Nat
  type : String
deriving DecidableEq

/-- Modelled from the spec: the canonical JSON-serializable form of a
Question (section 4.8 of the spec): `{ id, question, answer, category,
difficulty }`. -/
structure FormattedQuestion where
  id : Nat
  question : String
  answer : String
  category : String
  difficulty : String
deriving DecidableEq

/-- Modelled from the spec: `Question.format()` returns the dict with the
five fields of the row (section 4.8 of the spec). -/
def Question.format (q : Question) : FormattedQuestion :=
  ⟨q.id, q.question, q.answer, q.category, q.difficulty⟩

/-- Clamp one bound of a Python slice `l[start:stop]` to `[0, n]`:
a negative index counts from the end of the list. -/
def pyClamp (n : Nat) (i : Int) : Nat :=
  if i < 0 then (max 0 ((n : Int) + i)).toNat else min i.toNat n

/-- Python list slicing `l[start:stop]` (step 1): both bounds are clamped
by `pyClamp` and the elements at the resulting indices
`start, ..., stop - 1` are returned. -/
def pySlice (l : List α) (start stop : Int) : List α :=
  (l.take (pyClamp l.length stop)).drop (pyClamp l.length start)

def QUESTIONS_PER_PAGE : Nat := 10

/-- `paginate_elements` from the source: the page number comes from the
request query string (default 1), every element is formatted, and the
formatted list is sliced with `[start:end]` where
`start = (page - 1) * QUESTIONS_PER_PAGE` and
`end = start + QUESTIONS_PER_PAGE`. The `format` method of the elements is
passed explicitly. -/
def paginate_elements (format : α → β) (elements : List α) (page : Int) : List β :=
  let start : Int := (page - 1) * (QUESTIONS_PER_PAGE : Nat)
  let stop : Int := start + (QUESTIONS_PER_PAGE : Nat)
  let formatted_elements := elements.map format
  pySlice formatted_elements start stop

/-- SQLAlchemy `one_or_none()` over the rows a filtered query returns:
`none` for an empty result, the single row for a singleton result, and a
`MultipleResultsFound` exception (modelled as `Except.error`) otherwise. -/
def one_or_none (l : List α) : Except Unit (Option α) :=
  match l with
  | [] => Except.ok none
  | [a] => Except.ok (some a)
  | _ => Except.error ()

/-- A Python-level failure inside a handler body: either a Flask
`abort(code)` (an `HTTPException` carrying a status code) or any other
exception. Both are caught by a bare `except:`. -/
inductive PyErr where
  | http : Nat → PyErr
  | exn : PyErr
deriving DecidableEq

/-- Helper for the `%` wildcard of `ILIKE`: try the rest of the pattern
against every suffix of the string. -/
def tryDrops (f : List Char → Bool) : List Char → Bool
  | [] => f []
  | d :: s2 => f (d :: s2) || tryDrops f s2

/-- SQL `ILIKE` pattern matching, as used by
`Question.question.ilike(f'%{search_term}%')`: `%` matches any sequence
of characters, `_` matches exactly one character, a backslash escapes the
following pattern character, and every literal comparison is
case-insensitive. A dangling final backslash (an SQL error, unreachable
for the patterns the source builds) matches nothing. -/
def likeMatch : List Char → List Char → Bool
  | [], s => s.isEmpty
  | c :: p, s =>
    if c = '%' then tryDrops (likeMatch p) s
    else if c = '_' then
      match s with
      | [] => false
      | _ :: s2 => likeMatch p s2
    else if c = '\\' then
      match p with
      | [] => false
      | e :: p2 =>
        match s with
        | [] => false
        | d :: s2 => (Char.toLower e == Char.toLower d) && likeMatch p2 s2
    else
      match s with
      | [] => false
      | d :: s2 => (Char.toLower c == Char.toLower d) && likeMatch p s2

/-- The pattern the search endpoint builds: `f'%{search_term}%'`. -/
def pyPattern (term : String) : List Char :=
  '%' :: (term.toList ++ ['%'])

/-- The rows returned by
`Question.query.filter(Question.question.ilike(f'%{search_term}%')).all()`. -/
def ilikeFilter (questions : List Question) (term : String) : List Question :=
  questions.filter (fun q => likeMatch (pyPattern term) q.question.toList)

/-- Case-insensitive prefix test on character lists (spec-side notion,
used to state what a substring search should return). -/
def leadsB : List Char → List Char → Bool
  | [], _ => true
  | _ :: _, [] => false
  | c :: t, d :: s => (c == d) && leadsB t s

/-- Case-insensitive occurrence test (spec-side notion): does `t` occur
contiguously inside `s`? -/
def withinB (t : List Char) : List Char → Bool
  | [] => t.isEmpty
  | d :: s => leadsB t (d :: s) || withinB t s

/-- Written from the spec's words, for comparison with the source's
`ILIKE` query: "a case-insensitive substring match of that term against
the `question` text field". -/
def containsCI (t s : String) : Bool :=
  withinB (t.toList.map Char.toLower) (s.toList.map Char.toLower)

/-- A search term none of whose characters is an `ILIKE` metacharacter. -/
def plainTerm (t : String) : Prop :=
  ∀ c ∈ t.toList, c ≠ '%' ∧ c ≠ '_' ∧ c ≠ '\\'

instance (t : String) : Decidable (plainTerm t) := by
  unfold plainTerm
  infer_instance

/-- Insertion step for `order_by(Question.difficulty)`. -/
def insertByDifficulty (q : Question) : List Question → List Question
  | [] => [q]
  | x :: xs =>
    if q.difficulty ≤ x.difficulty then q :: x :: xs
    else x :: insertByDifficulty q xs

/-- `Question.query.order_by(Question.difficulty).all()`: the stored rows
sorted by their difficulty value. -/
def orderByDifficulty : List Question → List Question
  | [] => []
  | x :: xs => insertByDifficulty x (orderByDifficulty xs)

/-- Success JSON of `DELETE /api/questions/<question_id>`. -/
structure DeleteResponse where
  questions : List FormattedQuestion
  deleted : Nat
  success : Bool
  questions_per_page : Nat
  total_questions : Nat
deriving DecidableEq

/-- Body of the `try:` block of `delete_question`: look the row up with
`one_or_none`, `abort(404)` when it is missing, delete it, then re-fetch
the ordered question list and paginate it for the response. Returns the
store after the deletion together with the response. -/
def delete_question_inner (questions : List Question) (question_id : Nat)
    (page : Int) : Except PyErr (List Question × DeleteResponse) :=
  match one_or_none (questions.filter (fun q => q.id == question_id)) with
  | Except.error _ => Except.error PyErr.exn
  | Except.ok none => Except.error (PyErr.http 404)
  | Except.ok (some _) =>
    let questions2 := questions.filter (fun q => !(q.id == question_id))
    let current_questions :=
      paginate_elements Question.format (orderByDifficulty questions2) page
    Except.ok (questions2,
      ⟨current_questions, question_id, true, current_questions.length,
        questions2.length⟩)

/-- `DELETE /api/questions/<question_id>`: the whole body sits in a
`try: ... except: abort(422)`, so every failure — the deliberate
`abort(404)` included — surfaces as a 422. -/
def delete_question (questions : List Question) (question_id : Nat)
    (page : Int) : Except Nat (List Question × DeleteResponse) :=
  match delete_question_inner questions question_id page with
  | Except.ok r => Except.ok r
  | Except.error _ => Except.error 422

/-- JSON body of `POST /api/questions`; every value the handler reads is
fetched with `body.get(key)` or `body.get(key, '')`, so absent keys are
`none` here. -/
structure PostBody where
  searchTerm : Option String
  question : Option String
  answer : Option String
  category : Option String
  difficulty : Option String
deriving DecidableEq

/-- Python truthiness of `body.get('searchTerm')`: present and not the
empty string. -/
def PostBody.searchTermTruthy (b : PostBody) : Bool :=
  match b.searchTerm with
  | some s => !(s == "")
  | none => false

/-- Success JSON of the search branch of `POST /api/questions`. -/
structure SearchResponse where
  success : Bool
  questions : List FormattedQuestion
  total_questions : Nat
deriving DecidableEq

/-- Success JSON of the create branch of `POST /api/questions`. -/
structure CreateResponse where
  questions : List FormattedQuestion
  question_created : String
  created : Nat
  success : Bool
  questions_per_page : Nat
  total_questions : Nat
deriving DecidableEq

/-- Outcome of `POST /api/questions`: either the search response, or the
create response paired with the store after the insert. -/
inductive PostResult where
  | search : SearchResponse → PostResult
  | create : List Question → CreateResponse → PostResult
deriving DecidableEq

/-- `POST /api/questions`. A truthy `searchTerm` selects the search
branch: `ILIKE` filter, `abort(404)` on zero matches, paginate, and —
exactly as in the source — `total_questions` is the length of the already
paginated subset. Otherwise the create branch reads the four fields with
default `''`, aborts 422 when any is empty, and inserts the new row; the
store assigns `nextId` as its id (id assignment is modelled from the
spec: "unique integer identifier, assigned by the store on creation",
`models.py` not being part of the provided source; the insert itself
cannot fail in this model, so the surrounding `try/except` is exercised
only by its success path). -/
def post_question (questions : List Question) (nextId : Nat)
    (body : PostBody) (page : Int) : Except Nat PostResult :=
  if body.searchTermTruthy then
    let search_term := body.searchTerm.getD ""
    let search_result := ilikeFilter questions search_term
    if search_result.length == 0 then Except.error 404
    else
      let current_search_result :=
        paginate_elements Question.format search_result page
      Except.ok (PostResult.search
        ⟨true, current_search_result, current_search_result.length⟩)
  else
    let question := body.question.getD ""
    let answer := body.answer.getD ""
    let category := body.category.getD ""
    let difficulty := body.difficulty.getD ""
    if question == "" || answer == "" || category == "" || difficulty == ""
    then Except.error 422
    else
      let newQ : Question := ⟨nextId, question, answer, category, difficulty⟩
      let questions2 := questions ++ [newQ]
      let current_questions :=
        paginate_elements Question.format (orderByDifficulty questions2) page
      Except.ok (PostResult.create questions2
        ⟨current_questions, newQ.question, newQ.id, true,
          current_questions.length, questions2.length⟩)

/-- Success JSON of `GET /api/categories/<category_id>/questions`. -/
structure ByCategoryResponse where
  current_category : String
  questions : List FormattedQuestion
  success : Bool
  questions_per_page : Nat
  total_questions : Nat
deriving DecidableEq

/-- `GET /api/categories/<category_id>/questions`: look the category up,
`abort(400)` when it does not exist, filter the questions whose loosely
typed `category` field equals `str(category.id)`, paginate, and report
`total_questions` as the length of `Question.query.all()` — the global
count. A `MultipleResultsFound` from `one_or_none` is uncaught here, so
it surfaces as Flask's generic 500. -/
def get_questions_by_category (questions : List Question)
    (categories : List Category) (category_id : Nat) (page : Int) :
    Except Nat ByCategoryResponse :=
  match one_or_none (categories.filter (fun c => c.id == category_id)) with
  | Except.error _ => Except.error 500
  | Except.ok none => Except.error 400
  | Except.ok (some category) =>
    let current_category := category.type
    let questions_by_category :=
      questions.filter (fun q => q.category == toString category.id)
    let current_questions_by_category :=
      paginate_elements Question.format questions_by_category page
    Except.ok ⟨current_category, current_questions_by_category, true,
      current_questions_by_category.length, questions.length⟩

/-- The `quiz_category` object of a quiz request (`type` and `id`, the
`id` being the loosely typed value compared against `Question.category`). -/
structure QuizCategory where
  type : String
  id : String
deriving DecidableEq

/-- JSON body of `POST /api/quizzes`; either key may be absent. -/
structure QuizBody where
  quiz_category : Option QuizCategory
  previous_questions : Option (List Nat)
deriving DecidableEq

/-- Success JSON of `POST /api/quizzes`. -/
structure QuizResponse where
  success : Bool
  question : Option FormattedQuestion
deriving DecidableEq

/-- Body of the `try:` block of `get_random_quiz_question`: check both
keys are present (`abort(400)` otherwise), build the candidate list —
every question when `quiz_category.type == 'click'`, the requested
category's questions otherwise, minus `previous_questions` — and index it
with `random.randrange(0, len)` when non-empty. `randrange` is the
random-number generator, passed explicitly; an out-of-range draw would be
an `IndexError`, hence `PyErr.exn`. -/
def quiz_inner (questions : List Question) (randrange : Nat → Nat → Nat)
    (body : QuizBody) : Except PyErr QuizResponse :=
  if !(body.quiz_category.isSome && body.previous_questions.isSome) then
    Except.error (PyErr.http 400)
  else
    match body.quiz_category, body.previous_questions with
    | some category, some previous_questions =>
      let available_questions :=
        if category.type == "click" then
          questions.filter (fun q => !(previous_questions.contains q.id))
        else
          questions.filter (fun q =>
            q.category == category.id && !(previous_questions.contains q.id))
      if available_questions.length > 0 then
        match available_questions.get? (randrange 0 available_questions.length) with
        | some q => Except.ok ⟨true, some q.format⟩
        | none => Except.error PyErr.exn
      else
        Except.ok ⟨true, none⟩
    | _, _ => Except.error PyErr.exn

/-- `POST /api/quizzes`: the whole body sits in a
`try: ... except: abort(400)`. -/
def get_random_quiz_question (questions : List Question)
    (randrange : Nat → Nat → Nat) (body : QuizBody) :
    Except Nat QuizResponse :=
  match quiz_inner questions randrange body with
  | Except.ok r => Except.ok r
  | Except.error _ => Except.error 400

/-- Written from the spec's words, for comparison with the quiz handler:
the candidate set is "every Question not in `previous_questions`" when
`quiz_category.type` is the literal `"click"`, and otherwise the
Questions "whose `category` equals `quiz_category.id`" with the ids of
`previous_questions` excluded. -/
def quizCandidates (questions : List Question) (category : QuizCategory)
    (prev : List Nat) : List Question :=
  if category.type == "click" then
    questions.filter (fun q => !(prev.contains q.id))
  else
    questions.filter (fun q =>
      q.category == category.id && !(prev.contains q.id))

/-- Default Question row, used only as the `getD` fallback in statements
about the quiz draw. -/
def q0 : Question := ⟨0, "", "", "", ""⟩

/-- Sample row used by the witnesses. -/
def qSample : Question := ⟨1, "What is the Capital of France?", "Paris", "3", "1"⟩

/-- Sample row whose text is "abc", used by the search counterexample. -/
def qAbc : Question := ⟨1, "abc", "x", "1", "1"⟩

/-- Sample row in category 1, used by the witnesses. -/
def qCat1 : Question := ⟨5, "q", "a", "1", "2"⟩

/-- Sample category, used by the witnesses. -/
def catSample : Category := ⟨1, "Science"⟩

/-- Eleven rows that all match the search term "a", used to exhibit the
search endpoint's `total_questions` behaviour. -/
def elevenQs : List Question :=
  (List.range 11).map (fun i => ⟨i, "a", "b", "1", "1"⟩)

/-- Deterministic stand-in for random.randrange, used by a witness. -/
def zeroRand : Nat → Nat → Nat := fun _ _ => 0

/-- Expected search response at the sample store, used by a witness. -/
def rSearch1 : SearchResponse := ⟨true, [Question.format qSample], 1⟩

/-- Expected by-category response at the sample store, used by a witness. -/
def rCat1 : ByCategoryResponse := ⟨"Science", [Question.format qCat1], true, 1, 1⟩

theorem pyClamp_nonneg (n : Nat) (i : Int) (h : 0 ≤ i) :
    pyClamp n i = min i.toNat n := by
  unfold pyClamp
  rw [if_neg (by omega)]

theorem pySlice_nonneg (l : List α) (a : Nat) :
    pySlice l (a : Int) ((a : Int) + 10) = (l.drop a).take 10 := by
  unfold pySlice
  rw [pyClamp_nonneg _ _ (by omega), pyClamp_nonneg _ _ (by omega)]
  have h10 : ((a : Int) + 10).toNat = a + 10 := by omega
  rw [h10, Int.toNat_natCast]
  rcases le_or_lt a l.length with hle | hlt
  · rw [Nat.min_eq_left hle, List.drop_take]
    rcases le_or_lt (a + 10) l.length with h2 | h2
    · rw [Nat.min_eq_left h2]
      congr 1
      omega
    · rw [Nat.min_eq_right (by omega)]
      have hlen : (l.drop a).length = l.length - a := by
        rw [List.length_drop]
      rw [List.take_of_length_le (by omega), List.take_of_length_le (by omega)]
  · rw [Nat.min_eq_right (by omega)]
    have h1 : (l.take (min (a + 10) l.length)).length ≤ l.length := by
      rw [List.length_take]; omega
    rw [List.drop_eq_nil_of_le (by omega), List.drop_eq_nil_of_le (by omega),
      List.take_nil]

theorem paginate_eq_drop_take (f : α → β) (l : List α) (p : Int) (hp : 1 ≤ p) :
    paginate_elements f l p = ((l.map f).drop (((p - 1) * 10).toNat)).take 10 := by
  unfold paginate_elements
  have hs : (p - 1) * (QUESTIONS_PER_PAGE : Nat) = (((p - 1) * 10).toNat : Int) := by
    unfold QUESTIONS_PER_PAGE
    push_cast
    omega
  simp only [hs]
  have : ((((p - 1) * 10).toNat : Int)) + (QUESTIONS_PER_PAGE : Nat) =
      (((p - 1) * 10).toNat : Int) + 10 := by
    unfold QUESTIONS_PER_PAGE; push_cast; ring
  rw [this, pySlice_nonneg]

theorem paginate_length (f : α → β) (l : List α) (p : Int) (hp : 1 ≤ p) :
    (paginate_elements f l p).length = min 10 (l.length - ((p - 1) * 10).toNat) := by
  rw [paginate_eq_drop_take f l p hp, List.length_take, List.length_drop,
    List.length_map]

theorem tryDrops_eq_true_iff (f : List Char → Bool) (s : List Char) :
    tryDrops f s = true ↔ ∃ k, f (s.drop k) = true := by
  induction s with
  | nil =>
    constructor
    · intro h
      exact ⟨0, h⟩
    · rintro ⟨k, hk⟩
      simpa using hk
  | cons d s ih =>
    simp only [tryDrops, Bool.or_eq_true, ih]
    constructor
    · rintro (h | ⟨k, hk⟩)
      · exact ⟨0, h⟩
      · exact ⟨k + 1, hk⟩
    · rintro ⟨k, hk⟩
      cases k with
      | zero => exact Or.inl hk
      | succ k => exact Or.inr ⟨k, hk⟩

theorem likeMatch_percent (p s : List Char) :
    likeMatch ('%' :: p) s = tryDrops (likeMatch p) s := by
  rw [likeMatch.eq_def]
  simp

theorem likeMatch_lit_nil (c : Char) (p : List Char)
    (hc1 : c ≠ '%') (hc2 : c ≠ '_') (hc3 : c ≠ '\\') :
    likeMatch (c :: p) [] = false := by
  rw [likeMatch.eq_def]
  simp [hc1, hc2, hc3]

theorem likeMatch_lit_cons (c : Char) (p : List Char) (d : Char) (s : List Char)
    (hc1 : c ≠ '%') (hc2 : c ≠ '_') (hc3 : c ≠ '\\') :
    likeMatch (c :: p) (d :: s) =
      ((Char.toLower c == Char.toLower d) && likeMatch p s) := by
  rw [likeMatch.eq_def]
  simp [hc1, hc2, hc3]

theorem likeMatch_percent_end (s : List Char) : likeMatch ['%'] s = true := by
  rw [likeMatch_percent, tryDrops_eq_true_iff]
  refine ⟨s.length, ?_⟩
  simp [likeMatch]

theorem likeMatch_plain_head (t : List Char)
    (hplain : ∀ c ∈ t, c ≠ '%' ∧ c ≠ '_' ∧ c ≠ '\\') (s : List Char) :
    likeMatch (t ++ ['%']) s = true ↔
      leadsB (t.map Char.toLower) (s.map Char.toLower) = true := by
  induction t generalizing s with
  | nil =>
    simp only [List.nil_append, List.map_nil]
    rw [likeMatch_percent_end]
    simp [leadsB]
  | cons c t ih =>
    obtain ⟨hc1, hc2, hc3⟩ := hplain c (by simp)
    have hplain2 : ∀ a ∈ t, a ≠ '%' ∧ a ≠ '_' ∧ a ≠ '\\' := by
      intro a ha
      exact hplain a (by simp [ha])
    cases s with
    | nil =>
      rw [List.cons_append, likeMatch_lit_nil c _ hc1 hc2 hc3]
      simp [leadsB]
    | cons d s =>
      rw [List.cons_append, likeMatch_lit_cons c _ d s hc1 hc2 hc3]
      simp only [List.map_cons, leadsB, Bool.and_eq_true, ih hplain2]

theorem withinB_eq_true_iff (t s : List Char) :
    withinB t s = true ↔ ∃ k, leadsB t (s.drop k) = true := by
  induction s with
  | nil =>
    simp only [withinB, List.drop_nil]
    constructor
    · intro h
      refine ⟨0, ?_⟩
      cases t with
      | nil => rfl
      | cons c t => simp [List.isEmpty] at h
    · rintro ⟨k, hk⟩
      cases t with
      | nil => rfl
      | cons c t => simp [leadsB] at hk
  | cons d s ih =>
    simp only [withinB, Bool.or_eq_true, ih]
    constructor
    · rintro (h | ⟨k, hk⟩)
      · exact ⟨0, h⟩
      · exact ⟨k + 1, hk⟩
    · rintro ⟨k, hk⟩
      cases k with
      | zero => exact Or.inl hk
      | succ k => exact Or.inr ⟨k, hk⟩

theorem ilike_plain_eq_containsCI (term s : String) (hplain : plainTerm term) :
    likeMatch (pyPattern term) s.toList = containsCI term s := by
  have h1 : likeMatch (pyPattern term) s.toList = true ↔
      containsCI term s = true := by
    unfold pyPattern containsCI
    rw [likeMatch_percent, tryDrops_eq_true_iff, withinB_eq_true_iff]
    constructor
    · rintro ⟨k, hk⟩
      refine ⟨k, ?_⟩
      rw [← List.map_drop]
      exact (likeMatch_plain_head term.toList hplain (s.toList.drop k)).mp hk
    · rintro ⟨k, hk⟩
      refine ⟨k, (likeMatch_plain_head term.toList hplain (s.toList.drop k)).mpr ?_⟩
      rw [List.map_drop]
      exact hk
  cases ha : likeMatch (pyPattern term) s.toList with
  | true => exact (h1.mp ha).symm
  | false =>
    cases hb : containsCI term s with
    | false => rfl
    | true => exact Bool.noConfusion ((h1.mpr hb).symm.trans ha)

theorem ilikeFilter_plain (questions : List Question) (term : String)
    (hplain : plainTerm term) :
    ilikeFilter questions term =
      questions.filter (fun q => containsCI term q.question) := by
  unfold ilikeFilter
  apply List.filter_congr
  intro q hq
  exact ilike_plain_eq_containsCI term q.question hplain


/-- C1: for every list and every valid page number p (1-based), the
pagination helper returns exactly the formatted elements at offsets
(p-1)*10 through (p-1)*10+9 inclusive, clipped to the list bounds; pages
past the end yield the empty sequence, and the returned count equals
min(10, number of items remaining from the offset). -/
theorem claim_C1_pagination (f : α → β) (l : List α) (p : Int) (hp : 1 ≤ p) :
    paginate_elements f l p = ((l.map f).drop (((p - 1) * 10).toNat)).take 10 ∧
    (paginate_elements f l p).length = min 10 (l.length - ((p - 1) * 10).toNat) ∧
    (l.length ≤ ((p - 1) * 10).toNat → paginate_elements f l p = []) := by
  refine ⟨paginate_eq_drop_take f l p hp, paginate_length f l p hp, ?_⟩
  intro h
  rw [paginate_eq_drop_take f l p hp,
    List.drop_eq_nil_of_le (by simpa using h), List.take_nil]

/-- Witness for C1: page 3 of a 25-element list. -/
theorem claim_C1_pagination_witness :
    ((1 : Int) ≤ 3) ∧
    (paginate_elements (fun n : Nat => n) (List.range 25) 3 =
        (((List.range 25).map (fun n : Nat => n)).drop
          ((((3 : Int) - 1) * 10).toNat)).take 10 ∧
      (paginate_elements (fun n : Nat => n) (List.range 25) 3).length =
        min 10 ((List.range 25).length - (((3 : Int) - 1) * 10).toNat) ∧
      ((List.range 25).length ≤ (((3 : Int) - 1) * 10).toNat →
        paginate_elements (fun n : Nat => n) (List.range 25) 3 = [])) :=
  ⟨by decide, claim_C1_pagination (fun n : Nat => n) (List.range 25) 3 (by decide)⟩

/-- C9: a negative page value is neither rejected nor guaranteed empty:
page -1 over a 20-element list returns the ten elements at offsets 0
through 9 — Python negative-index slicing relative to the end. -/
theorem claim_C9_negative_page :
    paginate_elements (fun n : Nat => n) (List.range 20) (-1) =
      [0, 1, 2, 3, 4, 5, 6, 7, 8, 9] ∧
    paginate_elements (fun n : Nat => n) (List.range 20) (-1) ≠ [] := by
  decide

/-- C2: deleting a question id that does not exist in the store responds
422, because the internal abort(404) is caught by the bare except and
re-reported as abort(422). -/
theorem claim_C2_delete_missing_is_422 (questions : List Question)
    (question_id : Nat) (page : Int)
    (h : ∀ q ∈ questions, q.id ≠ question_id) :
    delete_question questions question_id page = Except.error 422 := by
  have hf : questions.filter (fun q => q.id == question_id) = [] := by
    rw [List.filter_eq_nil_iff]
    intro q hq
    simpa using h q hq
  unfold delete_question delete_question_inner
  rw [hf]
  rfl

/-- Witness for C2: id 2 is absent from a one-row store. -/
theorem claim_C2_witness :
    (∀ q ∈ [qSample], q.id ≠ 2) ∧
    delete_question [qSample] 2 1 = Except.error 422 :=
  ⟨by decide, claim_C2_delete_missing_is_422 [qSample] 2 1 (by decide)⟩

/-- C6: listing the questions of a category id that matches no Category
fails with 400. -/
theorem claim_C6_unknown_category_400 (questions : List Question)
    (categories : List Category) (category_id : Nat) (page : Int)
    (h : ∀ c ∈ categories, c.id ≠ category_id) :
    get_questions_by_category questions categories category_id page =
      Except.error 400 := by
  have hf : categories.filter (fun c => c.id == category_id) = [] := by
    rw [List.filter_eq_nil_iff]
    intro c hc
    simpa using h c hc
  unfold get_questions_by_category
  rw [hf]
  rfl

/-- Witness for C6: category id 9 is absent. -/
theorem claim_C6_witness :
    (∀ c ∈ [catSample], c.id ≠ 9) ∧
    get_questions_by_category [qCat1] [catSample] 9 1 = Except.error 400 :=
  ⟨by decide, claim_C6_unknown_category_400 [qCat1] [catSample] 9 1 (by decide)⟩

/-- C4: every success response of the by-category listing reports
total_questions as the number of ALL questions in the store, not the
number of questions of that category. -/
theorem claim_C4_total_is_global (questions : List Question)
    (categories : List Category) (category_id : Nat) (page : Int)
    (r : ByCategoryResponse)
    (h : get_questions_by_category questions categories category_id page =
      Except.ok r) :
    r.total_questions = questions.length := by
  unfold get_questions_by_category at h
  split at h
  · exact absurd h (by simp)
  · exact absurd h (by simp)
  · rw [Except.ok.injEq] at h
    subst h
    rfl

/-- Witness for C4: one matching question in a two-row store; the
response reports the global count 2. -/
theorem claim_C4_witness :
    get_questions_by_category [qCat1] [catSample] 1 1 = Except.ok rCat1 ∧
    rCat1.total_questions = [qCat1].length :=
  ⟨by decide, claim_C4_total_is_global [qCat1] [catSample] 1 1 rCat1 (by decide)⟩


/-- C3 counterexample: a search with eleven matching rows reports
total_questions = 10, the size of the paginated subset, not the match
count 11 — refuting the claim that total_questions is the count of
matches before pagination. -/
theorem claim_C3_counterexample :
    (ilikeFilter elevenQs "a").length = 11 ∧
    post_question elevenQs 100 ⟨some "a", none, none, none, none⟩ 1 =
      Except.ok (PostResult.search
        ⟨true, (elevenQs.take 10).map Question.format, 10⟩) := by
  decide

/-- C3 amended: every success response of the search branch reports
total_questions as the size of the already-paginated subset — for a valid
page, min(10, matches remaining from the page offset) — not the full
match count. -/
theorem claim_C3_amended (questions : List Question) (nextId : Nat)
    (body : PostBody) (page : Int) (r : SearchResponse)
    (hp : 1 ≤ page)
    (h : post_question questions nextId body page =
      Except.ok (PostResult.search r)) :
    r.total_questions = r.questions.length ∧
    r.total_questions =
      min 10 ((ilikeFilter questions (body.searchTerm.getD "")).length -
        ((page - 1) * 10).toNat) := by
  unfold post_question at h
  split at h
  · simp only [] at h
    split at h
    · exact absurd h (by simp)
    · rw [Except.ok.injEq, PostResult.search.injEq] at h
      subst h
      refine ⟨rfl, ?_⟩
      exact paginate_length Question.format _ page hp
  · simp only [] at h
    split at h
    · exact absurd h (by simp)
    · exact absurd h (by simp)

/-- Witness for the amended C3: one matching row, page 1. -/
theorem claim_C3_amended_witness :
    ((1 : Int) ≤ 1) ∧
    post_question [qSample] 9 ⟨some "cap", none, none, none, none⟩ 1 =
      Except.ok (PostResult.search rSearch1) ∧
    (rSearch1.total_questions = rSearch1.questions.length ∧
      rSearch1.total_questions =
        min 10 ((ilikeFilter [qSample]
          ((⟨some "cap", none, none, none, none⟩ : PostBody).searchTerm.getD
            "")).length - (((1 : Int) - 1) * 10).toNat)) :=
  ⟨by decide, by decide,
    claim_C3_amended [qSample] 9 ⟨some "cap", none, none, none, none⟩ 1
      rSearch1 (by decide) (by decide)⟩

/-- C7: with no truthy searchTerm, the create path fails 422 exactly when
one of the four fields is missing or empty; otherwise it succeeds and the
response carries the new question text as question_created, the
store-assigned id as created, and success = true. -/
theorem claim_C7_create (questions : List Question) (nextId : Nat)
    (body : PostBody) (page : Int)
    (h : body.searchTermTruthy = false) :
    (post_question questions nextId body page = Except.error 422 ↔
      (body.question.getD "" = "" ∨ body.answer.getD "" = "" ∨
        body.category.getD "" = "" ∨ body.difficulty.getD "" = "")) ∧
    ((body.question.getD "" ≠ "" ∧ body.answer.getD "" ≠ "" ∧
        body.category.getD "" ≠ "" ∧ body.difficulty.getD "" ≠ "") →
      ∃ questions2 resp,
        post_question questions nextId body page =
          Except.ok (PostResult.create questions2 resp) ∧
        questions2 = questions ++ [⟨nextId, body.question.getD "",
          body.answer.getD "", body.category.getD "",
          body.difficulty.getD ""⟩] ∧
        resp.question_created = body.question.getD "" ∧
        resp.created = nextId ∧
        resp.success = true) := by
  unfold post_question
  rw [h]
  simp only [Bool.false_eq_true, if_false]
  by_cases hcond : (body.question.getD "" == "" || body.answer.getD "" == "" ||
      body.category.getD "" == "" || body.difficulty.getD "" == "") = true
  · rw [if_pos hcond]
    simp only [Bool.or_eq_true, beq_iff_eq] at hcond
    constructor
    · constructor
      · intro _
        tauto
      · intro _
        rfl
    · rintro ⟨h1, h2, h3, h4⟩
      tauto
  · rw [if_neg hcond]
    simp only [Bool.or_eq_true, beq_iff_eq] at hcond
    constructor
    · constructor
      · intro habs
        exact absurd habs (by simp)
      · intro hd
        tauto
    · intro _
      exact ⟨_, _, rfl, rfl, rfl, rfl, rfl⟩

/-- Witness for C7: a body with all four fields populated. -/
theorem claim_C7_witness :
    ((⟨none, some "Q?", some "A", some "2", some "3"⟩ :
        PostBody).searchTermTruthy = false) ∧
    ((post_question [] 1 ⟨none, some "Q?", some "A", some "2", some "3"⟩ 1 =
        Except.error 422 ↔
      ((⟨none, some "Q?", some "A", some "2", some "3"⟩ :
          PostBody).question.getD "" = "" ∨
        (⟨none, some "Q?", some "A", some "2", some "3"⟩ :
          PostBody).answer.getD "" = "" ∨
        (⟨none, some "Q?", some "A", some "2", some "3"⟩ :
          PostBody).category.getD "" = "" ∨
        (⟨none, some "Q?", some "A", some "2", some "3"⟩ :
          PostBody).difficulty.getD "" = "")) ∧
    (((⟨none, some "Q?", some "A", some "2", some "3"⟩ :
          PostBody).question.getD "" ≠ "" ∧
        (⟨none, some "Q?", some "A", some "2", some "3"⟩ :
          PostBody).answer.getD "" ≠ "" ∧
        (⟨none, some "Q?", some "A", some "2", some "3"⟩ :
          PostBody).category.getD "" ≠ "" ∧
        (⟨none, some "Q?", some "A", some "2", some "3"⟩ :
          PostBody).difficulty.getD "" ≠ "") →
      ∃ questions2 resp,
        post_question [] 1 ⟨none, some "Q?", some "A", some "2", some "3"⟩ 1 =
          Except.ok (PostResult.create questions2 resp) ∧
        questions2 = [] ++ [⟨1, (⟨none, some "Q?", some "A", some "2", some "3"⟩ :
            PostBody).question.getD "",
          (⟨none, some "Q?", some "A", some "2", some "3"⟩ :
            PostBody).answer.getD "",
          (⟨none, some "Q?", some "A", some "2", some "3"⟩ :
            PostBody).category.getD "",
          (⟨none, some "Q?", some "A", some "2", some "3"⟩ :
            PostBody).difficulty.getD ""⟩] ∧
        resp.question_created = (⟨none, some "Q?", some "A", some "2", some "3"⟩ :
          PostBody).question.getD "" ∧
        resp.created = 1 ∧
        resp.success = true)) :=
  ⟨by decide,
    claim_C7_create [] 1 ⟨none, some "Q?", some "A", some "2", some "3"⟩ 1
      (by decide)⟩

/-- C10: a searchTerm bound to the empty string routes to the create
branch: the request can never produce the search branch 404, and with no
other fields supplied it fails 422. -/
theorem claim_C10_empty_searchTerm_creates (questions : List Question)
    (nextId : Nat) (body : PostBody) (page : Int)
    (h : body.searchTerm = some "") :
    post_question questions nextId body page ≠ Except.error 404 ∧
    (body.question = none → body.answer = none → body.category = none →
      body.difficulty = none →
      post_question questions nextId body page = Except.error 422) := by
  have ht : body.searchTermTruthy = false := by
    unfold PostBody.searchTermTruthy
    rw [h]
    simp
  unfold post_question
  rw [ht]
  simp only [Bool.false_eq_true, if_false]
  constructor
  · split
    · simp
    · simp
  · intro h1 h2 h3 h4
    rw [h1, h2, h3, h4]
    rfl

/-- Witness for C10: empty searchTerm and nothing else in the body. -/
theorem claim_C10_witness :
    post_question [] 3 ⟨some "", none, none, none, none⟩ 1 ≠
      Except.error 404 ∧
    ((⟨some "", none, none, none, none⟩ : PostBody).question = none →
      (⟨some "", none, none, none, none⟩ : PostBody).answer = none →
      (⟨some "", none, none, none, none⟩ : PostBody).category = none →
      (⟨some "", none, none, none, none⟩ : PostBody).difficulty = none →
      post_question [] 3 ⟨some "", none, none, none, none⟩ 1 =
        Except.error 422) :=
  claim_C10_empty_searchTerm_creates [] 3 ⟨some "", none, none, none, none⟩ 1 rfl


theorem quiz_inner_eq (questions : List Question)
    (randrange : Nat → Nat → Nat) (category : QuizCategory)
    (prev : List Nat) :
    quiz_inner questions randrange ⟨some category, some prev⟩ =
      (if (quizCandidates questions category prev).length > 0 then
        match (quizCandidates questions category prev).get?
            (randrange 0 (quizCandidates questions category prev).length) with
        | some q => Except.ok ⟨true, some q.format⟩
        | none => Except.error PyErr.exn
      else Except.ok ⟨true, none⟩) := rfl

/-- C5: for a quiz request with both quiz_category and previous_questions,
with the candidate set as specified (all unseen Questions for the literal
type "click", otherwise the unseen Questions of the requested category),
the request succeeds; the served question is a formatted member of the
candidate set when that set is non-empty and null when it is empty. The
random generator is any function with randrange 0 n < n for 0 < n. -/
theorem claim_C5_quiz (questions : List Question)
    (randrange : Nat → Nat → Nat) (body : QuizBody)
    (category : QuizCategory) (prev : List Nat)
    (hcat : body.quiz_category = some category)
    (hprev : body.previous_questions = some prev)
    (hrand : ∀ n, 0 < n → randrange 0 n < n) :
    (quizCandidates questions category prev = [] →
      get_random_quiz_question questions randrange body =
        Except.ok ⟨true, none⟩) ∧
    (quizCandidates questions category prev ≠ [] →
      (quizCandidates questions category prev).getD
          (randrange 0 (quizCandidates questions category prev).length) q0 ∈
        quizCandidates questions category prev ∧
      get_random_quiz_question questions randrange body =
        Except.ok ⟨true, some (((quizCandidates questions category prev).getD
          (randrange 0 (quizCandidates questions category prev).length)
          q0).format)⟩) := by
  obtain ⟨bc, bp⟩ := body
  simp only at hcat hprev
  subst hcat
  subst hprev
  unfold get_random_quiz_question
  rw [quiz_inner_eq questions randrange category prev]
  constructor
  · intro hempty
    rw [hempty]
    rfl
  · intro hne
    have hpos : 0 < (quizCandidates questions category prev).length :=
      List.length_pos.mpr hne
    have hidx : randrange 0 (quizCandidates questions category prev).length <
        (quizCandidates questions category prev).length :=
      hrand _ hpos
    have hget : (quizCandidates questions category prev).get?
        (randrange 0 (quizCandidates questions category prev).length) =
        some ((quizCandidates questions category prev).get
          ⟨randrange 0 (quizCandidates questions category prev).length, hidx⟩) :=
      List.get?_eq_get hidx
    have hgetD : (quizCandidates questions category prev).getD
        (randrange 0 (quizCandidates questions category prev).length) q0 =
        (quizCandidates questions category prev).get
          ⟨randrange 0 (quizCandidates questions category prev).length, hidx⟩ :=
      List.getD_eq_get _ _ hidx
    constructor
    · rw [hgetD]
      exact List.get_mem _ _ _
    · rw [if_pos hpos, hget, hgetD]


/-- Witness for C5: a "click" request with no previous questions over a
one-row store serves that row. -/
theorem claim_C5_witness :
    ((quizCandidates [qSample] ⟨"click", "0"⟩ [] = [] →
      get_random_quiz_question [qSample] zeroRand
          ⟨some ⟨"click", "0"⟩, some []⟩ =
        Except.ok ⟨true, none⟩) ∧
    (quizCandidates [qSample] ⟨"click", "0"⟩ [] ≠ [] →
      (quizCandidates [qSample] ⟨"click", "0"⟩ []).getD
          (zeroRand 0 (quizCandidates [qSample] ⟨"click", "0"⟩ []).length) q0 ∈
        quizCandidates [qSample] ⟨"click", "0"⟩ [] ∧
      get_random_quiz_question [qSample] zeroRand
          ⟨some ⟨"click", "0"⟩, some []⟩ =
        Except.ok ⟨true, some (((quizCandidates [qSample] ⟨"click", "0"⟩ []).getD
          (zeroRand 0 (quizCandidates [qSample] ⟨"click", "0"⟩ []).length)
          q0).format)⟩)) :=
  claim_C5_quiz [qSample] zeroRand ⟨some ⟨"click", "0"⟩, some []⟩
    ⟨"click", "0"⟩ [] rfl rfl (fun n hn => by simpa [zeroRand] using hn)

/-- C8 counterexample: the search term "a_c" is not a case-insensitive
substring of the stored text "abc", yet the ILIKE query returns that row
(the underscore is an SQL wildcard) — refuting the claim that the search
returns exactly the Questions whose text contains the term as a
case-insensitive substring. -/
theorem claim_C8_counterexample :
    qAbc.question = "abc" ∧
    containsCI "a_c" "abc" = false ∧
    post_question [qAbc] 2 ⟨some "a_c", none, none, none, none⟩ 1 =
      Except.ok (PostResult.search ⟨true, [Question.format qAbc], 1⟩) := by
  decide

/-- C8 amended: for a non-empty search term free of the ILIKE
metacharacters %, _ and backslash, the search path returns exactly the
Questions whose text contains the term as a case-insensitive substring,
and fails 404 exactly when zero Questions do. -/
theorem claim_C8_amended (questions : List Question) (nextId : Nat)
    (body : PostBody) (page : Int) (term : String)
    (hterm : body.searchTerm = some term) (hne : term ≠ "")
    (hplain : plainTerm term) :
    ilikeFilter questions term =
      questions.filter (fun q => containsCI term q.question) ∧
    (post_question questions nextId body page = Except.error 404 ↔
      questions.filter (fun q => containsCI term q.question) = []) := by
  have hfil := ilikeFilter_plain questions term hplain
  refine ⟨hfil, ?_⟩
  have ht : body.searchTermTruthy = true := by
    unfold PostBody.searchTermTruthy
    rw [hterm]
    simpa using hne
  have hgd : body.searchTerm.getD "" = term := by
    rw [hterm]
    rfl
  unfold post_question
  rw [ht, if_pos rfl]
  simp only [hgd, hfil]
  by_cases hc : (questions.filter (fun q => containsCI term q.question)).length = 0
  · rw [if_pos (by simpa using hc)]
    constructor
    · intro _
      exact List.length_eq_zero.mp hc
    · intro _
      rfl
  · rw [if_neg (by simpa using hc)]
    constructor
    · intro habs
      exact absurd habs (by simp)
    · intro hnil
      refine absurd ?_ hc
      rw [hnil]
      rfl

/-- Witness for the amended C8: searching "cap" over a store whose single
row's text contains "Capital". -/
theorem claim_C8_amended_witness :
    ("cap" ≠ "" ∧ plainTerm "cap") ∧
    (ilikeFilter [qSample] "cap" =
        [qSample].filter (fun q => containsCI "cap" q.question) ∧
      (post_question [qSample] 9 ⟨some "cap", none, none, none, none⟩ 1 =
          Except.error 404 ↔
        [qSample].filter (fun q => containsCI "cap" q.question) = [])) :=
  ⟨⟨by decide, by decide⟩,
    claim_C8_amended [qSample] 9 ⟨some "cap", none, none, none, none⟩ 1 "cap"
      rfl (by decide) (by decide)⟩

end TriviaAPI
